import Mathlib

/-!
Verification of `geospatial_functions.py`: a shallow embedding of the
script's data model and operations, with theorems settling the spec's
claims about centroid calculation, POI fetching, and interactive map
construction.

Coordinates are modelled as rationals (the script performs exact
arithmetic-mean and polygon-centroid computations on them); fallible
Python functions (those that raise `ValueError`) are modelled as
`Except String` values carrying the raised message.
-/

/-- A geographic point: `x` is longitude, `y` is latitude, as in OSMnx
node attributes and shapely coordinates. -/
structure Pt where
  x : ℚ
  y : ℚ
  deriving DecidableEq, Repr

/-- A street-network graph node, carrying its coordinate attributes
`x` (longitude) and `y` (latitude). -/
structure Node where
  x : ℚ
  y : ℚ
  deriving DecidableEq, Repr

/-- A street-network edge; only the optional street-name attribute is
observable downstream (it feeds the map layer's tooltip). -/
structure Edge where
  name : Option String
  deriving DecidableEq, Repr

/-- The street network: a multigraph whose claim-relevant content is its
node list (with coordinate data) and edge list. -/
structure Graph where
  nodes : List Node
  edges : List Edge
  deriving DecidableEq, Repr

/-- Embedding of `calculate_graph_centroid`: raises (returns `.error`)
when the graph has no nodes, otherwise averages all node `y` values
(latitude) and `x` values (longitude) and returns `(latitude, longitude)`. -/
def calculate_graph_centroid (graph : Graph) : Except String (ℚ × ℚ) :=
  if graph.nodes.isEmpty then
    .error "Graph has no nodes to calculate a centroid."
  else
    let node_xs := graph.nodes.map Node.x
    let node_ys := graph.nodes.map Node.y
    let latitude := node_ys.sum / (node_ys.length : ℚ)
    let longitude := node_xs.sum / (node_xs.length : ℚ)
    .ok (latitude, longitude)

/-- A shapely-style geometry attached to a POI record. `lineString`
stands for the geometry types other than Point/Polygon/MultiPolygon that
a feature query can return; polygons are their exterior vertex rings. -/
inductive Geometry where
  | point : Pt → Geometry
  | polygon : List Pt → Geometry
  | multiPolygon : List (List Pt) → Geometry
  | lineString : List Pt → Geometry
  deriving DecidableEq, Repr

/-- The `geom_type` attribute of a geometry, as the string shapely reports. -/
def Geometry.geom_type : Geometry → String
  | .point _ => "Point"
  | .polygon _ => "Polygon"
  | .multiPolygon _ => "MultiPolygon"
  | .lineString _ => "LineString"

/-- Python truthiness of a geometry object: a geometry is falsy exactly
when it is empty (has no coordinates). -/
def Geometry.truthy : Geometry → Bool
  | .point _ => true
  | .polygon vs => !vs.isEmpty
  | .multiPolygon ps => ps.any fun vs => !vs.isEmpty
  | .lineString vs => !vs.isEmpty

/-- One row of the POI GeoDataFrame: an optional geometry (a missing or
null geometry field is `none`), an optional display name, and the four
OSM tag columns the script inspects. A tag that is absent for this record
is `none`. -/
structure POIRecord where
  geometry : Option Geometry
  name : Option String
  tourism : Option String
  amenity : Option String
  leisure : Option String
  shop : Option String
  deriving DecidableEq, Repr

/-- The generic lookup-failure message `get_points_of_interest` raises
from its exception handler. -/
def poiGenericError (place_name : String) : String :=
  "Could not retrieve POIs for \x27" ++ place_name ++ "\x27. Check tags or place name."

/-- The message of the `ValueError` raised inside the `try` block when the
query returns zero results. -/
def poiEmptyError (place_name : String) : String :=
  "No POIs found for \x27" ++ place_name ++ "\x27 with the specified tags."

/-- Embedding of `get_points_of_interest`. The outcome of the external
`ox.features_from_place(place_name, tags)` call is passed in as `fetched`
(`.error` models the underlying library raising). Inside the `try` block,
a zero-result collection raises a `ValueError` with the zero-result
message; the surrounding `except Exception` clause catches every exception
raised inside the `try` block — including that deliberate raise — and
re-raises a `ValueError` with the generic lookup-failure message. -/
def get_points_of_interest (place_name : String)
    (fetched : Except String (List POIRecord)) : Except String (List POIRecord) :=
  let tryBody : Except String (List POIRecord) :=
    match fetched with
    | .error e => .error e
    | .ok pois =>
        if pois.isEmpty then .error (poiEmptyError place_name)
        else .ok pois
  match tryBody with
  | .ok pois => .ok pois
  | .error _ => .error (poiGenericError place_name)

/-- Python truthiness of `row.get(key)` for a tag column: `none` (missing)
and the empty string are falsy; any other string value is populated. -/
def tagValue : Option String → Option String
  | none => none
  | some v => if v = "" then none else some v

/-- Embedding of Python `str.replace("_", " ")`: every underscore becomes
a space (single-character pattern, so a plain character map). -/
def replaceUnderscore (s : String) : String :=
  ⟨s.data.map fun c => if c = '_' then ' ' else c⟩

/-- Helper for `titleCase`: walks the characters tracking whether the
previous character was alphabetic, as Python `str.title()` does. -/
def titleCaseAux : Bool → List Char → List Char
  | _, [] => []
  | prevAlpha, c :: cs =>
      (if c.isAlpha then (if prevAlpha then c.toLower else c.toUpper) else c)
        :: titleCaseAux c.isAlpha cs

/-- Embedding of Python `str.title()`: the first letter of every
alphabetic run is uppercased and the rest lowercased. -/
def titleCase (s : String) : String :=
  ⟨titleCaseAux false s.data⟩

/-- The human-formatted type string the popup shows for a tag value:
`value.replace("_", " ").title()`. -/
def formatTag (v : String) : String :=
  titleCase (replaceUnderscore v)

/-- Embedding of the popup-text construction: the record name (default
"Unnamed POI") with "Type: " and the formatted value of the first
populated tag among tourism, amenity, leisure, shop appended — an
`if`/`elif` chain, so at most one tag contributes. -/
def popupText (row : POIRecord) : String :=
  let base := row.name.getD "Unnamed POI"
  match tagValue row.tourism with
  | some v => base ++ "Type: " ++ formatTag v
  | none =>
    match tagValue row.amenity with
    | some v => base ++ "Type: " ++ formatTag v
    | none =>
      match tagValue row.leisure with
      | some v => base ++ "Type: " ++ formatTag v
      | none =>
        match tagValue row.shop with
        | some v => base ++ "Type: " ++ formatTag v
        | none => base

/-- The four marker clusters a POI can be filed under. -/
inductive Cluster where
  | attractions
  | cafes
  | parks
  | other
  deriving DecidableEq, Repr

/-- The icon style and destination cluster chosen for one POI record. -/
structure POIStyle where
  cluster : Cluster
  iconColor : String
  iconName : String
  deriving DecidableEq, Repr

/-- Embedding of the icon/cluster assignment `if`/`elif` chain: defaults
to Other/blue/info, then first match among tourism=attraction,
amenity=cafe, leisure=park wins. -/
def classify (row : POIRecord) : POIStyle :=
  if row.tourism = some "attraction" then
    { cluster := .attractions, iconColor := "red", iconName := "star" }
  else if row.amenity = some "cafe" then
    { cluster := .cafes, iconColor := "green", iconName := "coffee" }
  else if row.leisure = some "park" then
    { cluster := .parks, iconColor := "lightgreen", iconName := "tree" }
  else
    { cluster := .other, iconColor := "blue", iconName := "info" }

/-- Consecutive vertex pairs of a ring, the last vertex wrapping to the
first — the edges the surveyor centroid formula sums over. -/
def ringPairs (vs : List Pt) : List (Pt × Pt) :=
  vs.zip (vs.rotate 1)

/-- Twice the signed area of a vertex ring (the shoelace sum). -/
def twiceSignedArea (vs : List Pt) : ℚ :=
  ((ringPairs vs).map fun ab => ab.1.x * ab.2.y - ab.2.x * ab.1.y).sum

/-- Shoelace moment sum for the centroid x coordinate of a ring. -/
def centroidSumX (vs : List Pt) : ℚ :=
  ((ringPairs vs).map fun ab =>
    (ab.1.x + ab.2.x) * (ab.1.x * ab.2.y - ab.2.x * ab.1.y)).sum

/-- Shoelace moment sum for the centroid y coordinate of a ring. -/
def centroidSumY (vs : List Pt) : ℚ :=
  ((ringPairs vs).map fun ab =>
    (ab.1.y + ab.2.y) * (ab.1.x * ab.2.y - ab.2.x * ab.1.y)).sum

/-- Area-weighted centroid of a polygon's exterior ring, as the geometry
library computes it. A degenerate (zero-area) ring has no area centroid
and is treated as a geometry error, which the map builder catches per
record. -/
def polygonCentroid (vs : List Pt) : Except String Pt :=
  let a2 := twiceSignedArea vs
  if a2 = 0 then .error "zero-area geometry has no centroid"
  else .ok { x := centroidSumX vs / (3 * a2), y := centroidSumY vs / (3 * a2) }

/-- Area-weighted centroid of a multi-polygon: moment sums and areas are
accumulated over all member polygons. -/
def multiPolygonCentroid (ps : List (List Pt)) : Except String Pt :=
  let a2 := (ps.map twiceSignedArea).sum
  if a2 = 0 then .error "zero-area geometry has no centroid"
  else
    .ok { x := (ps.map centroidSumX).sum / (3 * a2),
          y := (ps.map centroidSumY).sum / (3 * a2) }

/-- The (lon, lat) the marker is placed at: the geometry's own coordinates
when it is a Point, otherwise its centroid (the code computes
`geometry.centroid` whenever `geom_type != 'Point'`; behind the
geometry-type filter that means Polygon or MultiPolygon). -/
def representativePoint : Geometry → Except String Pt
  | .point p => .ok p
  | .polygon vs => polygonCentroid vs
  | .multiPolygon ps => multiPolygonCentroid ps
  | .lineString _ => .error "unreachable behind the geometry-type filter"

/-- A folium marker: its (lat, lon) location, popup text, and icon. -/
structure Marker where
  lat : ℚ
  lon : ℚ
  popup : String
  iconColor : String
  iconName : String
  deriving DecidableEq, Repr

/-- Processing of one POI row in the map-builder loop. `none` means the
row contributes no marker: either the geometry filter rejected it
(missing/empty geometry or a geometry type outside
Point/Polygon/MultiPolygon), or an exception inside the `try` block —
modelled as `representativePoint` failing — was caught, logged and the
row skipped. Otherwise it yields the destination cluster and the marker. -/
def processPOI (row : POIRecord) : Option (Cluster × Marker) :=
  match row.geometry with
  | none => none
  | some g =>
    if g.truthy ∧ g.geom_type ∈ ["Point", "Polygon", "MultiPolygon"] then
      match representativePoint g with
      | .error _ => none
      | .ok p =>
        let st := classify row
        some (st.cluster,
          { lat := p.y, lon := p.x, popup := popupText row,
            iconColor := st.iconColor, iconName := st.iconName })
    else none

/-- The four marker lists accumulated while iterating over the POI rows. -/
structure ClusterState where
  attractions : List Marker
  cafes : List Marker
  parks : List Marker
  other : List Marker
  deriving DecidableEq, Repr

/-- Appends a marker to the chosen cluster's marker list. -/
def ClusterState.add (s : ClusterState) (c : Cluster) (mk : Marker) : ClusterState :=
  match c with
  | .attractions => { s with attractions := s.attractions ++ [mk] }
  | .cafes => { s with cafes := s.cafes ++ [mk] }
  | .parks => { s with parks := s.parks ++ [mk] }
  | .other => { s with other := s.other ++ [mk] }

/-- One iteration of the POI loop: a row that produces no marker leaves
the clusters unchanged; otherwise its marker joins its cluster. -/
def addRecord (s : ClusterState) (row : POIRecord) : ClusterState :=
  match processPOI row with
  | none => s
  | some (c, mk) => s.add c mk

/-- The whole POI loop, starting from four empty clusters. -/
def buildClusters (pois : List POIRecord) : ClusterState :=
  pois.foldl addRecord { attractions := [], cafes := [], parks := [], other := [] }

/-- A named marker-cluster layer of the finished map. -/
structure ClusterLayer where
  name : String
  markers : List Marker
  deriving DecidableEq, Repr

/-- The composed folium map document: center, zoom, tile source, the
street-network GeoJson layer (its edges), the marker-cluster layers in
creation order, and whether a layer control was attached. -/
structure MapDoc where
  centerLat : ℚ
  centerLon : ℚ
  zoom : ℕ
  tiles : String
  streetNetwork : List Edge
  clusters : List ClusterLayer
  layerControl : Bool
  deriving DecidableEq, Repr

/-- Embedding of `create_interactive_map`: computes the centroid
(propagating its `ValueError` uncaught), builds the base map, the street
layer, the four unconditionally created marker clusters, fills them row by
row, and attaches the layer control. -/
def create_interactive_map (graph : Graph) (pois_gdf : List POIRecord)
    (location_name : String) (initial_zoom : ℕ) : Except String MapDoc :=
  match calculate_graph_centroid graph with
  | .error e => .error e
  | .ok (center_lat, center_lon) =>
    let cs := buildClusters pois_gdf
    .ok { centerLat := center_lat, centerLon := center_lon,
          zoom := initial_zoom, tiles := "OpenStreetMap",
          streetNetwork := graph.edges,
          clusters := [
            { name := "Attractions", markers := cs.attractions },
            { name := "Cafes", markers := cs.cafes },
            { name := "Parks", markers := cs.parks },
            { name := "Other POIs", markers := cs.other }],
          layerControl := true }

/-- Spec-side tag selection for the popup: the first populated value in a
priority-ordered list of tag columns. -/
def firstPopulated : List (Option String) → Option String
  | [] => none
  | t :: rest =>
    match tagValue t with
    | some v => some v
    | none => firstPopulated rest

/-- Concrete one-node graph used by the end-to-end scenarios. -/
def demoGraph : Graph :=
  { nodes := [{ x := 13, y := 47 }], edges := [] }

/-- Concrete POI record of the C6 scenario: a named attraction with a
point geometry. -/
def castleRow : POIRecord :=
  { geometry := some (.point { x := 13, y := 47 }), name := some "Castle",
    tourism := some "attraction", amenity := none, leisure := none, shop := none }

/-- Concrete malformed POI record: its geometry column is null. -/
def nullGeomRow : POIRecord :=
  { geometry := none, name := none, tourism := none, amenity := none,
    leisure := none, shop := none }

/-- Concrete POI record tagged both tourism=attraction and amenity=cafe. -/
def attractionCafeRow : POIRecord :=
  { castleRow with amenity := some "cafe" }

/-- Concrete POI record whose polygon is degenerate (a single repeated
vertex, zero area), so computing its centroid is a geometry error. -/
def degenerateRow : POIRecord :=
  { geometry := some (.polygon [{ x := 0, y := 0 }]), name := some "Degenerate",
    tourism := none, amenity := none, leisure := none, shop := none }

/-- The marker the builder produces for `castleRow`. -/
def castleMarker : Marker :=
  { lat := 47, lon := 13, popup := "CastleType: Attraction",
    iconColor := "red", iconName := "star" }

/-- The map document the builder produces for `demoGraph` and
`[castleRow]`. -/
def demoDoc : MapDoc :=
  { centerLat := 47, centerLon := 13, zoom := 14, tiles := "OpenStreetMap",
    streetNetwork := [],
    clusters := [
      { name := "Attractions", markers := [castleMarker] },
      { name := "Cafes", markers := [] },
      { name := "Parks", markers := [] },
      { name := "Other POIs", markers := [] }],
    layerControl := true }

/-- The unit square, a concrete polygon ring. -/
def unitSquare : List Pt :=
  [{ x := 0, y := 0 }, { x := 1, y := 0 }, { x := 1, y := 1 }, { x := 0, y := 1 }]

/-- Concrete untagged POI record whose geometry is the unit square. -/
def squareRow : POIRecord :=
  { geometry := some (.polygon unitSquare), name := none,
    tourism := none, amenity := none, leisure := none, shop := none }

/-- C1: on every graph with a non-empty node set, `calculate_graph_centroid`
returns the arithmetic mean of the node `y` values as latitude and of the
node `x` values as longitude; in particular the 3-node graph at
(lat, lon) = (10, 20), (20, 30), (30, 40) yields centroid (20, 30). -/
theorem calculate_graph_centroid_is_mean (graph : Graph) (h : graph.nodes ≠ []) :
    calculate_graph_centroid graph =
      .ok ((graph.nodes.map Node.y).sum / (graph.nodes.length : ℚ),
           (graph.nodes.map Node.x).sum / (graph.nodes.length : ℚ)) ∧
    calculate_graph_centroid
      { nodes := [{ x := 20, y := 10 }, { x := 30, y := 20 }, { x := 40, y := 30 }],
        edges := [] } = .ok (20, 30) := by
  constructor
  · simp only [calculate_graph_centroid, List.isEmpty_iff, h, if_false, List.length_map]
  · simp only [calculate_graph_centroid]
    norm_num

/-- Witness for C1: the mean theorem instantiated at the 3-node example graph. -/
theorem calculate_graph_centroid_is_mean_witness :
    calculate_graph_centroid
      { nodes := [{ x := 20, y := 10 }, { x := 30, y := 20 }, { x := 40, y := 30 }],
        edges := [] } = .ok (20, 30) :=
  (calculate_graph_centroid_is_mean
    { nodes := [{ x := 20, y := 10 }, { x := 30, y := 20 }, { x := 40, y := 30 }],
      edges := [] } (by decide)).2

/-- C2: on every graph whose node set is empty, `calculate_graph_centroid`
fails with the invalid-argument error rather than returning a value. -/
theorem calculate_graph_centroid_empty_fails (graph : Graph) (h : graph.nodes = []) :
    calculate_graph_centroid graph =
      .error "Graph has no nodes to calculate a centroid." := by
  simp [calculate_graph_centroid, h]

/-- Witness for C2: the empty-graph failure at the concrete empty graph. -/
theorem calculate_graph_centroid_empty_fails_witness :
    calculate_graph_centroid { nodes := [], edges := [] } =
      .error "Graph has no nodes to calculate a centroid." :=
  calculate_graph_centroid_empty_fails { nodes := [], edges := [] } rfl

/-- C3 counterexample: the zero-result case and the lower-level fetch
failure surface the very same error, with the very same message — the
zero-result `ValueError` raised inside the `try` block is caught by the
function's own `except` clause and replaced by the generic message, so the
caller cannot tell the two apart by message. -/
theorem get_points_of_interest_same_message_counterexample :
    get_points_of_interest "Salzburg, Austria" (.ok []) =
      .error "Could not retrieve POIs for \x27Salzburg, Austria\x27. Check tags or place name." ∧
    get_points_of_interest "Salzburg, Austria" (.error "connection reset") =
      .error "Could not retrieve POIs for \x27Salzburg, Austria\x27. Check tags or place name." ∧
    get_points_of_interest "Salzburg, Austria" (.ok []) =
      get_points_of_interest "Salzburg, Austria" (.error "connection reset") := by
  refine ⟨rfl, rfl, rfl⟩

/-- C3 amended: when the query returns zero results,
`get_points_of_interest` fails with the lookup-failure error kind and a
message naming the place, but the surfaced message is the same generic one
used for a lower-level fetch failure — the distinct zero-result message is
swallowed by the function's own exception handler. -/
theorem get_points_of_interest_zero_results (place_name : String)
    (fetched : Except String (List POIRecord)) (h : fetched = .ok []) :
    get_points_of_interest place_name fetched =
      .error ("Could not retrieve POIs for \x27" ++ place_name ++
        "\x27. Check tags or place name.") ∧
    ∀ e, get_points_of_interest place_name (.error e) =
      .error ("Could not retrieve POIs for \x27" ++ place_name ++
        "\x27. Check tags or place name.") := by
  subst h
  exact ⟨rfl, fun e => rfl⟩

/-- Witness for the amended C3 at a concrete place and zero-result fetch. -/
theorem get_points_of_interest_zero_results_witness :
    get_points_of_interest "Salzburg, Austria" (.ok []) =
      .error ("Could not retrieve POIs for \x27" ++ "Salzburg, Austria" ++
        "\x27. Check tags or place name.") :=
  (get_points_of_interest_zero_results "Salzburg, Austria" (.ok []) rfl).1

/-- Helper: a non-empty node set makes the centroid calculation succeed. -/
theorem centroid_ok_of_nonempty (graph : Graph) (h : graph.nodes ≠ []) :
    ∃ c, calculate_graph_centroid graph = .ok c := by
  simp [calculate_graph_centroid, List.isEmpty_iff, h]

/-- Helper: a row that produces no marker leaves the cluster fold
unchanged, wherever it sits in the row list. -/
theorem foldl_addRecord_skip (row : POIRecord) (h : processPOI row = none) :
    ∀ (l1 l2 : List POIRecord) (s : ClusterState),
      (l1 ++ row :: l2).foldl addRecord s = (l1 ++ l2).foldl addRecord s := by
  intro l1
  induction l1 with
  | nil => intro l2 s; simp [List.foldl_cons, addRecord, h]
  | cons a t ih =>
      intro l2 s
      simp only [List.cons_append, List.foldl_cons]
      exact ih l2 (addRecord s a)

/-- C4: cluster/icon assignment is deterministic first-match priority:
tourism=attraction wins over amenity=cafe, which wins over leisure=park,
and everything else lands in Other; in particular a record tagged both
tourism=attraction and amenity=cafe is an Attraction, never a Cafe. -/
theorem classify_first_match_priority (row : POIRecord) :
    (row.tourism = some "attraction" →
      classify row = { cluster := .attractions, iconColor := "red", iconName := "star" }) ∧
    (row.tourism ≠ some "attraction" → row.amenity = some "cafe" →
      classify row = { cluster := .cafes, iconColor := "green", iconName := "coffee" }) ∧
    (row.tourism ≠ some "attraction" → row.amenity ≠ some "cafe" →
      row.leisure = some "park" →
      classify row = { cluster := .parks, iconColor := "lightgreen", iconName := "tree" }) ∧
    (row.tourism ≠ some "attraction" → row.amenity ≠ some "cafe" →
      row.leisure ≠ some "park" →
      classify row = { cluster := .other, iconColor := "blue", iconName := "info" }) ∧
    (row.tourism = some "attraction" → row.amenity = some "cafe" →
      (classify row).cluster = Cluster.attractions ∧
      (classify row).cluster ≠ Cluster.cafes) := by
  refine ⟨?_, ?_, ?_, ?_, ?_⟩
  · intro h1; simp [classify, h1]
  · intro h1 h2; simp [classify, h1, h2]
  · intro h1 h2 h3; simp [classify, h1, h2, h3]
  · intro h1 h2 h3; simp [classify, h1, h2, h3]
  · intro h1 _; simp [classify, h1]

/-- Witness for C4: the double-tagged record is classified as an
Attraction with the red star icon. -/
theorem classify_first_match_priority_witness :
    classify attractionCafeRow =
      { cluster := .attractions, iconColor := "red", iconName := "star" } :=
  (classify_first_match_priority attractionCafeRow).1 rfl

/-- C5: a row whose geometry is missing, or whose geometry type is not
Point/Polygon/MultiPolygon, yields no marker; dropping it from the row
list does not change the built map, and the build still succeeds (no
exception escapes) whenever the graph is non-empty. -/
theorem bad_geometry_rows_excluded (graph : Graph) (pois1 pois2 : List POIRecord)
    (row : POIRecord) (loc : String) (zoom : ℕ)
    (h : row.geometry = none ∨
      ∃ g, row.geometry = some g ∧
        g.geom_type ∉ (["Point", "Polygon", "MultiPolygon"] : List String)) :
    processPOI row = none ∧
    create_interactive_map graph (pois1 ++ row :: pois2) loc zoom =
      create_interactive_map graph (pois1 ++ pois2) loc zoom ∧
    (graph.nodes ≠ [] → ∃ doc,
      create_interactive_map graph (pois1 ++ row :: pois2) loc zoom = .ok doc) := by
  have hnone : processPOI row = none := by
    rcases h with h | ⟨g, hg, hmem⟩
    · simp [processPOI, h]
    · simp [processPOI, hg, hmem]
  refine ⟨hnone, ?_, ?_⟩
  · have hb := foldl_addRecord_skip row hnone pois1 pois2
      { attractions := [], cafes := [], parks := [], other := [] }
    unfold create_interactive_map buildClusters
    rw [hb]
  · intro hne
    obtain ⟨⟨clat, clon⟩, hc⟩ := centroid_ok_of_nonempty graph hne
    refine ⟨{ centerLat := clat, centerLon := clon, zoom := zoom,
              tiles := "OpenStreetMap", streetNetwork := graph.edges,
              clusters := [
                { name := "Attractions",
                  markers := (buildClusters (pois1 ++ row :: pois2)).attractions },
                { name := "Cafes",
                  markers := (buildClusters (pois1 ++ row :: pois2)).cafes },
                { name := "Parks",
                  markers := (buildClusters (pois1 ++ row :: pois2)).parks },
                { name := "Other POIs",
                  markers := (buildClusters (pois1 ++ row :: pois2)).other }],
              layerControl := true }, ?_⟩
    unfold create_interactive_map
    rw [hc]

/-- Witness for C5: the null-geometry record is excluded from the demo
build without raising. -/
theorem bad_geometry_rows_excluded_witness :
    processPOI nullGeomRow = none ∧
    create_interactive_map demoGraph ([] ++ nullGeomRow :: []) "Salzburg, Austria" 14 =
      create_interactive_map demoGraph ([] ++ []) "Salzburg, Austria" 14 ∧
    (demoGraph.nodes ≠ [] → ∃ doc,
      create_interactive_map demoGraph ([] ++ nullGeomRow :: []) "Salzburg, Austria" 14 =
        .ok doc) :=
  bad_geometry_rows_excluded demoGraph [] [] nullGeomRow "Salzburg, Austria" 14
    (Or.inl rfl)

/-- C6: an error while processing one row (its representative-point
computation raising) is caught: the row alone is skipped and the build is
unchanged; and the concrete scenario — one valid attraction named
"Castle" plus one null-geometry record — builds successfully with exactly
one marker, in the Attractions cluster. -/
theorem per_record_errors_recovered (graph : Graph) (pois1 pois2 : List POIRecord)
    (row : POIRecord) (loc : String) (zoom : ℕ) (g : Geometry) (e : String)
    (hg : row.geometry = some g) (herr : representativePoint g = .error e) :
    processPOI row = none ∧
    create_interactive_map graph (pois1 ++ row :: pois2) loc zoom =
      create_interactive_map graph (pois1 ++ pois2) loc zoom ∧
    (create_interactive_map demoGraph [castleRow, nullGeomRow] "Salzburg, Austria" 14).map
        (fun doc => doc.clusters.map fun c => (c.name, c.markers.length)) =
      .ok [("Attractions", 1), ("Cafes", 0), ("Parks", 0), ("Other POIs", 0)] := by
  have hnone : processPOI row = none := by
    simp [processPOI, hg, herr]
  refine ⟨hnone, ?_, ?_⟩
  · have hb := foldl_addRecord_skip row hnone pois1 pois2
      { attractions := [], cafes := [], parks := [], other := [] }
    unfold create_interactive_map buildClusters
    rw [hb]
  · rfl

/-- Witness for C6: the degenerate-polygon record (whose centroid
computation errors) is skipped without aborting the build. -/
theorem per_record_errors_recovered_witness :
    processPOI degenerateRow = none ∧
    create_interactive_map demoGraph ([] ++ degenerateRow :: []) "Salzburg, Austria" 14 =
      create_interactive_map demoGraph ([] ++ []) "Salzburg, Austria" 14 ∧
    (create_interactive_map demoGraph [castleRow, nullGeomRow] "Salzburg, Austria" 14).map
        (fun doc => doc.clusters.map fun c => (c.name, c.markers.length)) =
      .ok [("Attractions", 1), ("Cafes", 0), ("Parks", 0), ("Other POIs", 0)] :=
  per_record_errors_recovered demoGraph [] [] degenerateRow "Salzburg, Austria" 14
    (.polygon [{ x := 0, y := 0 }]) "zero-area geometry has no centroid" rfl
    (by simp [representativePoint, polygonCentroid, twiceSignedArea, ringPairs,
      List.rotate])


/-- C7: whenever a row gets a marker, a Polygon geometry places it at the
polygon's centroid and a MultiPolygon at the multi-polygon's centroid —
and the unit square's centroid (1/2, 1/2) is none of its vertices — while
a Point geometry places the marker at the point itself; the unit-square
row does get such a marker, at (1/2, 1/2). -/
theorem marker_placed_at_centroid :
    (∀ row c mk vs, processPOI row = some (c, mk) →
      row.geometry = some (.polygon vs) →
      polygonCentroid vs = .ok { x := mk.lon, y := mk.lat }) ∧
    (∀ row c mk ps, processPOI row = some (c, mk) →
      row.geometry = some (.multiPolygon ps) →
      multiPolygonCentroid ps = .ok { x := mk.lon, y := mk.lat }) ∧
    (∀ row c mk q, processPOI row = some (c, mk) →
      row.geometry = some (.point q) →
      mk.lat = q.y ∧ mk.lon = q.x) ∧
    (polygonCentroid unitSquare = .ok { x := 1/2, y := 1/2 } ∧
      ∀ v ∈ unitSquare, v ≠ ({ x := 1/2, y := 1/2 } : Pt)) ∧
    (∃ c mk, processPOI squareRow = some (c, mk) ∧
      mk.lat = 1/2 ∧ mk.lon = 1/2) := by
  have hsq : polygonCentroid unitSquare = .ok { x := 1/2, y := 1/2 } := by
    simp only [polygonCentroid, twiceSignedArea, centroidSumX, centroidSumY,
      ringPairs, unitSquare, List.rotate]
    norm_num
  refine ⟨?_, ?_, ?_, ⟨hsq, ?_⟩, ?_⟩
  · intro row c mk vs h hg
    simp only [processPOI, hg, representativePoint] at h
    split at h
    · split at h
      · exact absurd h (by simp)
      · next p heq =>
          obtain ⟨-, rfl⟩ := Prod.mk.injEq .. ▸ Option.some.injEq .. ▸ h
          exact heq
    · exact absurd h (by simp)
  · intro row c mk ps h hg
    simp only [processPOI, hg, representativePoint] at h
    split at h
    · split at h
      · exact absurd h (by simp)
      · next p heq =>
          obtain ⟨-, rfl⟩ := Prod.mk.injEq .. ▸ Option.some.injEq .. ▸ h
          exact heq
    · exact absurd h (by simp)
  · intro row c mk q h hg
    simp only [processPOI, hg, representativePoint] at h
    split at h
    · obtain ⟨-, rfl⟩ := Prod.mk.injEq .. ▸ Option.some.injEq .. ▸ h
      exact ⟨rfl, rfl⟩
    · exact absurd h (by simp)
  · intro v hv
    simp only [unitSquare, List.mem_cons, List.not_mem_nil, or_false] at hv
    rcases hv with rfl | rfl | rfl | rfl <;>
      simp only [ne_eq, Pt.mk.injEq, not_and] <;> intro h <;> norm_num at h ⊢
  · refine ⟨Cluster.other,
      { lat := 1/2, lon := 1/2, popup := "Unnamed POI",
        iconColor := "blue", iconName := "info" }, ?_, rfl, rfl⟩
    simp only [processPOI, squareRow, representativePoint, hsq]
    norm_num [Geometry.truthy, Geometry.geom_type, unitSquare, classify,
      popupText, tagValue]
    simp

/-- Witness for C7: the point-geometry record named "Castle" gets its
marker exactly at its point's coordinates. -/
theorem marker_placed_at_centroid_witness :
    castleMarker.lat = ({ x := 13, y := 47 } : Pt).y ∧
    castleMarker.lon = ({ x := 13, y := 47 } : Pt).x :=
  marker_placed_at_centroid.2.2.1 castleRow Cluster.attractions castleMarker
    { x := 13, y := 47 } rfl rfl

/-- C8: the popup label is the record's name (default "Unnamed POI")
concatenated with a "Type: " string formatted (underscores to spaces,
title-cased) from the first populated tag among tourism, amenity, leisure,
shop — in that priority order, never combining tags — and nothing is
appended when all four are unpopulated. -/
theorem popup_label_first_populated_tag :
    (∀ row, popupText row = row.name.getD "Unnamed POI" ++
      (firstPopulated [row.tourism, row.amenity, row.leisure, row.shop]).elim ""
        (fun v => "Type: " ++ formatTag v)) ∧
    formatTag "picnic_site" = "Picnic Site" ∧
    popupText nullGeomRow = "Unnamed POI" := by
  refine ⟨?_, by decide, by decide⟩
  intro row
  simp only [popupText, firstPopulated]
  cases h1 : tagValue row.tourism <;> cases h2 : tagValue row.amenity <;>
    cases h3 : tagValue row.leisure <;> cases h4 : tagValue row.shop <;>
      simp [Option.elim, String.append_assoc]

/-- Helper: the demo build succeeds and produces exactly `demoDoc`. -/
theorem demo_build_eq :
    create_interactive_map demoGraph [castleRow] "Salzburg, Austria" 14 =
      .ok demoDoc := by
  have hc : calculate_graph_centroid demoGraph = .ok (47, 13) := by
    simp [calculate_graph_centroid, demoGraph]
  unfold create_interactive_map
  rw [hc]
  rfl

/-- C9: building the map twice from identical inputs yields documents
with identical center coordinates and identical per-cluster marker
counts — the builder is deterministic. -/
theorem map_build_deterministic (graph : Graph) (pois : List POIRecord)
    (loc : String) (zoom : ℕ) (d1 d2 : MapDoc)
    (h1 : create_interactive_map graph pois loc zoom = .ok d1)
    (h2 : create_interactive_map graph pois loc zoom = .ok d2) :
    d1.centerLat = d2.centerLat ∧ d1.centerLon = d2.centerLon ∧
    d1.clusters.map (fun c => (c.name, c.markers.length)) =
      d2.clusters.map (fun c => (c.name, c.markers.length)) := by
  rw [h1, Except.ok.injEq] at h2
  subst h2
  exact ⟨rfl, rfl, rfl⟩

/-- Witness for C9: two identical demo builds agree on center and
per-cluster counts. -/
theorem map_build_deterministic_witness :
    demoDoc.centerLat = demoDoc.centerLat ∧
    demoDoc.centerLon = demoDoc.centerLon ∧
    demoDoc.clusters.map (fun c => (c.name, c.markers.length)) =
      demoDoc.clusters.map (fun c => (c.name, c.markers.length)) :=
  map_build_deterministic demoGraph [castleRow] "Salzburg, Austria" 14
    demoDoc demoDoc demo_build_eq demo_build_eq

/-- C10: every successfully built map document has exactly the four
marker-cluster layers "Attractions", "Cafes", "Parks", "Other POIs" — in
that creation order, regardless of the POI rows — plus the layer
control. -/
theorem four_clusters_unconditional (graph : Graph) (pois : List POIRecord)
    (loc : String) (zoom : ℕ) (doc : MapDoc)
    (h : create_interactive_map graph pois loc zoom = .ok doc) :
    doc.clusters.map ClusterLayer.name =
      ["Attractions", "Cafes", "Parks", "Other POIs"] ∧
    doc.clusters.length = 4 ∧ doc.layerControl = true := by
  unfold create_interactive_map at h
  split at h
  · exact absurd h (by simp)
  · rw [Except.ok.injEq] at h
    subst h
    exact ⟨rfl, rfl, rfl⟩

/-- Witness for C10: the demo build exhibits the four named clusters and
the layer control. -/
theorem four_clusters_unconditional_witness :
    demoDoc.clusters.map ClusterLayer.name =
      ["Attractions", "Cafes", "Parks", "Other POIs"] ∧
    demoDoc.clusters.length = 4 ∧ demoDoc.layerControl = true :=
  four_clusters_unconditional demoGraph [castleRow] "Salzburg, Austria" 14
    demoDoc demo_build_eq
